import Mathlib

/-!
Shallow embedding of the MILBench simulation core (milbench/base_env.py,
milbench/entities.py, milbench/gym_render.py).  Machine floats of the source
are modelled as rationals; the physics engine (pymunk) and the OpenGL layer
are external libraries, so only the repository's own logic around them is
embedded.  Definitions mirror the Python source line by line; doc comments
cite the file and lines they come from.
-/

namespace Milbench

/-! ### Robot action flags (entities.py, lines 41-48: `class RobotAction(enum.IntFlag)`) -/

namespace RobotAction

def NONE : Nat := 0
def UP : Nat := 1
def DOWN : Nat := 2
def LEFT : Nat := 4
def RIGHT : Nat := 8
def OPEN : Nat := 16
def CLOSE : Nat := 32

end RobotAction

/-- Truthiness of `mask & flag` in Python: the bitwise AND is nonzero. -/
def hasFlag (mask flag : Nat) : Bool := mask &&& flag != 0

/-! ### Robot control state (entities.py, `Robot.__init__` lines 53-62 and
`set_action` lines 229-247).  Only the fields read or written by
`set_action`/`update` are modelled; physics-engine handles are external. -/

structure Robot where
  radius : ℚ
  rel_turn_angle : ℚ
  target_speed : ℚ
  finger_rot_limit_outer : ℚ
  finger_rot_limit_inner : ℚ
  target_finger_angle : ℚ
deriving DecidableEq, Repr

/-- Embedding of `Robot.set_action(self, move_action)` (entities.py lines
229-247), statement by statement: zero the turn angle and target speed, add
`4.0*radius` on UP, subtract `3.0*radius` on DOWN, cancel to zero when both
are set, add `1.5` on LEFT, subtract `1.5` on RIGHT, and set the target
finger angle to the outer limit on OPEN, elif to minus the inner limit on
CLOSE. -/
def Robot.set_action (self : Robot) (move_action : Nat) : Robot :=
  let self := { self with rel_turn_angle := (0:ℚ), target_speed := (0:ℚ) }
  let self := if hasFlag move_action RobotAction.UP then
      { self with target_speed := self.target_speed + 4 * self.radius } else self
  let self := if hasFlag move_action RobotAction.DOWN then
      { self with target_speed := self.target_speed - 3 * self.radius } else self
  let self := if hasFlag move_action RobotAction.UP && hasFlag move_action RobotAction.DOWN then
      { self with target_speed := (0:ℚ) } else self
  let self := if hasFlag move_action RobotAction.LEFT then
      { self with rel_turn_angle := self.rel_turn_angle + 3/2 } else self
  let self := if hasFlag move_action RobotAction.RIGHT then
      { self with rel_turn_angle := self.rel_turn_angle - 3/2 } else self
  if hasFlag move_action RobotAction.OPEN then
    { self with target_finger_angle := self.finger_rot_limit_outer }
  else if hasFlag move_action RobotAction.CLOSE then
    { self with target_finger_angle := -self.finger_rot_limit_inner }
  else self

/-- Embedding of the finger-motor part of `Robot.update(self, dt)`
(entities.py lines 258-270): for one finger of side `finger_side` (-1 for
the left finger, 1 for the right), `rel_angle = finger_body.angle -
robot_body.angle`, `angle_error = rel_angle + finger_side *
target_finger_angle`, `target_rate = max(-1, min(1, angle_error * 10))`,
snapped to exactly 0.0 when `abs(target_rate) < 1e-4`; the result is written
to `finger_motor.rate`. -/
def Robot.finger_motor_rate (target_finger_angle robot_body_angle finger_body_angle
    finger_side : ℚ) : ℚ :=
  let rel_angle := finger_body_angle - robot_body_angle
  let angle_error := rel_angle + finger_side * target_finger_angle
  let target_rate := max (-1) (min 1 (angle_error * 10))
  if |target_rate| < 1/10000 then (0:ℚ) else target_rate

/-- The finger loop of `Robot.update` zips the two finger bodies with sides
`[-1, 1]` (entities.py lines 259-270); this returns the pair of motor rates
(left finger, right finger). -/
def Robot.update_finger_rates (self : Robot) (robot_body_angle finger_angle_left
    finger_angle_right : ℚ) : ℚ × ℚ :=
  (Robot.finger_motor_rate self.target_finger_angle robot_body_angle finger_angle_left (-1),
   Robot.finger_motor_rate self.target_finger_angle robot_body_angle finger_angle_right 1)

/-- Closed form of `set_action`: the sequence of updates in entities.py lines
229-247 collapses to one value per field. -/
lemma set_action_spec (r : Robot) (m : Nat) :
    r.set_action m = { r with
      target_speed :=
        if hasFlag m RobotAction.UP && hasFlag m RobotAction.DOWN then 0
        else if hasFlag m RobotAction.UP then 4 * r.radius
        else if hasFlag m RobotAction.DOWN then -(3 * r.radius) else 0,
      rel_turn_angle :=
        (if hasFlag m RobotAction.LEFT then (3:ℚ)/2 else 0)
          + (if hasFlag m RobotAction.RIGHT then -((3:ℚ)/2) else 0),
      target_finger_angle :=
        if hasFlag m RobotAction.OPEN then r.finger_rot_limit_outer
        else if hasFlag m RobotAction.CLOSE then -r.finger_rot_limit_inner
        else r.target_finger_angle } := by
  cases hU : hasFlag m RobotAction.UP <;>
    cases hD : hasFlag m RobotAction.DOWN <;>
    cases hL : hasFlag m RobotAction.LEFT <;>
    cases hR : hasFlag m RobotAction.RIGHT <;>
    cases hO : hasFlag m RobotAction.OPEN <;>
    cases hC : hasFlag m RobotAction.CLOSE <;>
    simp [Robot.set_action, hU, hD, hL, hR, hO, hC]

/-- C4: `Robot.set_action` decodes the bitmask: UP and DOWN together cancel
the target speed to zero; UP alone gives the positive speed `4 * radius`;
DOWN alone gives the negative speed `-(3 * radius)`, smaller in magnitude;
with neither LEFT nor RIGHT the relative turn rate is zero, and LEFT/RIGHT
alone contribute the opposite-sign rates `3/2` and `-3/2`; the target finger
angle is set to the outward limit on OPEN, to minus the inward limit on
CLOSE (without OPEN), and is unchanged when neither is set. -/
theorem robot_set_action_decodes_flags (r : Robot) (m : Nat) (hrad : 0 < r.radius) :
    (hasFlag m RobotAction.UP = true → hasFlag m RobotAction.DOWN = true →
      (r.set_action m).target_speed = 0)
    ∧ (hasFlag m RobotAction.UP = true → hasFlag m RobotAction.DOWN = false →
      (r.set_action m).target_speed = 4 * r.radius ∧ 0 < (r.set_action m).target_speed)
    ∧ (hasFlag m RobotAction.UP = false → hasFlag m RobotAction.DOWN = true →
      (r.set_action m).target_speed = -(3 * r.radius) ∧ (r.set_action m).target_speed < 0
        ∧ |(r.set_action m).target_speed| < |4 * r.radius|)
    ∧ (hasFlag m RobotAction.LEFT = false → hasFlag m RobotAction.RIGHT = false →
      (r.set_action m).rel_turn_angle = 0)
    ∧ (hasFlag m RobotAction.LEFT = true → hasFlag m RobotAction.RIGHT = false →
      (r.set_action m).rel_turn_angle = 3/2)
    ∧ (hasFlag m RobotAction.LEFT = false → hasFlag m RobotAction.RIGHT = true →
      (r.set_action m).rel_turn_angle = -(3/2))
    ∧ (hasFlag m RobotAction.OPEN = true →
      (r.set_action m).target_finger_angle = r.finger_rot_limit_outer)
    ∧ (hasFlag m RobotAction.OPEN = false → hasFlag m RobotAction.CLOSE = true →
      (r.set_action m).target_finger_angle = -r.finger_rot_limit_inner)
    ∧ (hasFlag m RobotAction.OPEN = false → hasFlag m RobotAction.CLOSE = false →
      (r.set_action m).target_finger_angle = r.target_finger_angle) := by
  refine ⟨fun h1 h2 => ?_, fun h1 h2 => ?_, fun h1 h2 => ?_, fun h1 h2 => ?_,
    fun h1 h2 => ?_, fun h1 h2 => ?_, fun h1 => ?_, fun h1 h2 => ?_, fun h1 h2 => ?_⟩
  · simp [set_action_spec, h1, h2]
  · constructor
    · simp [set_action_spec, h1, h2]
    · simp [set_action_spec, h1, h2]
      linarith
  · refine ⟨by simp [set_action_spec, h1, h2], by simp [set_action_spec, h1, h2]; linarith, ?_⟩
    have e1 : |(r.set_action m).target_speed| = 3 * r.radius := by
      simp [set_action_spec, h1, h2]
      linarith
    have e2 : |4 * r.radius| = 4 * r.radius := abs_of_nonneg (by linarith)
    rw [e1, e2]; linarith
  · simp [set_action_spec, h1, h2]
  · simp [set_action_spec, h1, h2]
  · simp [set_action_spec, h1, h2]
  · simp [set_action_spec, h1]
  · simp [set_action_spec, h1, h2]
  · simp [set_action_spec, h1, h2]

/-- Example robot used to instantiate the theorems: radius 0.2 as in
`BaseEnv.ROBOT_RAD`, symmetric finger limits, rest state. -/
def exampleRobot : Robot :=
  { radius := 1/5, rel_turn_angle := 0, target_speed := 0,
    finger_rot_limit_outer := 2/5, finger_rot_limit_inner := 2/5,
    target_finger_angle := 0 }

/-- Witness for C4: action 21 = UP + LEFT + OPEN on the example robot. -/
theorem robot_set_action_decodes_flags_witness :
    (exampleRobot.set_action 21).target_speed = 4 * exampleRobot.radius
      ∧ 0 < (exampleRobot.set_action 21).target_speed :=
  (robot_set_action_decodes_flags exampleRobot 21 (by norm_num [exampleRobot])).2.1
    (by decide) (by decide)

/-- C10: when both OPEN and CLOSE are set, the `if`/`elif` in entities.py
lines 242-247 takes the OPEN branch, so the target finger angle becomes the
outward limit. -/
theorem robot_set_action_open_overrides_close (r : Robot) (m : Nat)
    (hO : hasFlag m RobotAction.OPEN = true) (_hC : hasFlag m RobotAction.CLOSE = true) :
    (r.set_action m).target_finger_angle = r.finger_rot_limit_outer := by
  simp [set_action_spec, hO]

/-- Witness for C10: action 48 = OPEN + CLOSE on the example robot. -/
theorem robot_set_action_open_overrides_close_witness :
    (exampleRobot.set_action 48).target_finger_angle = exampleRobot.finger_rot_limit_outer :=
  robot_set_action_open_overrides_close exampleRobot 48 (by decide) (by decide)

/-- C8: after `Robot.update`, each finger motor rate is the angle error times
10 clamped to `[-1, 1]` whenever that clamped value has magnitude at least
`1e-4`, and is exactly `0.0` whenever the clamped value has magnitude below
`1e-4`; consequently it always lies in `[-1, 1]` and is either exactly zero
or of magnitude at least `1e-4`. -/
theorem finger_motor_rate_bounded (t a f side : ℚ) :
    (-1 ≤ Robot.finger_motor_rate t a f side ∧ Robot.finger_motor_rate t a f side ≤ 1)
    ∧ (Robot.finger_motor_rate t a f side = 0
        ∨ 1/10000 ≤ |Robot.finger_motor_rate t a f side|)
    ∧ (1/10000 ≤ |max (-1) (min 1 (((f - a) + side * t) * 10))| →
        Robot.finger_motor_rate t a f side = max (-1) (min 1 (((f - a) + side * t) * 10)))
    ∧ (|max (-1) (min 1 (((f - a) + side * t) * 10))| < 1/10000 →
        Robot.finger_motor_rate t a f side = 0) := by
  have hdef : Robot.finger_motor_rate t a f side
      = if |max (-1) (min 1 (((f - a) + side * t) * 10))| < 1/10000 then (0:ℚ)
        else max (-1) (min 1 (((f - a) + side * t) * 10)) := rfl
  set c := max (-1) (min 1 (((f - a) + side * t) * 10)) with hc
  by_cases h : |c| < 1/10000
  · rw [hdef, if_pos h]
    exact ⟨⟨by norm_num, by norm_num⟩, Or.inl rfl,
      fun habs => absurd h (not_lt.mpr habs), fun _ => rfl⟩
  · rw [hdef, if_neg h]
    exact ⟨⟨le_max_left _ _, max_le (by norm_num) (min_le_left _ _)⟩,
      Or.inr (not_lt.mp h), fun _ => rfl, fun hsmall => absurd hsmall h⟩

/-- Witness for C8: with target angle 1, zero body angles and side 1, the
clamped value is 1 and the motor rate equals it; with the tiny target angle
`1/200000` the clamped value is `1/20000 < 1e-4` and the motor rate snaps to
exactly 0. -/
theorem finger_motor_rate_bounded_witness :
    Robot.finger_motor_rate 1 0 0 1 = max (-1) (min 1 (((0 - 0) + 1 * 1) * 10))
    ∧ Robot.finger_motor_rate (1/200000) 0 0 1 = 0 :=
  ⟨(finger_motor_rate_bounded 1 0 0 1).2.2.1 (by
      have h1 : min (1:ℚ) (((0 - 0) + 1 * 1) * 10) = 1 := min_eq_left (by norm_num)
      have h2 : max (-1:ℚ) 1 = 1 := max_eq_right (by norm_num)
      rw [h1, h2]; norm_num),
   (finger_motor_rate_bounded (1/200000) 0 0 1).2.2.2 (by
      have h1 : ((0:ℚ) - 0 + 1 * (1/200000)) * 10 = 1/20000 := by norm_num
      rw [h1]
      have h2 : min (1:ℚ) (1/20000) = 1/20000 := min_eq_right (by norm_num)
      have h3 : max (-1:ℚ) (1/20000) = 1/20000 := max_eq_right (by norm_num)
      rw [h2, h3, abs_of_nonneg (by norm_num : (0:ℚ) ≤ 1/20000)]
      norm_num)⟩

/-! ### Per-frame physics integration (base_env.py, `BaseEnv._phys_steps_on_frame`
lines 234-241).  The loop body is modelled as an event trace: an `update`
event per live entity followed by one `space_step` event, per sub-step. -/

inductive PhysEvent
  | update (ent_index : Nat) (dt : ℚ)
  | space_step (dt : ℚ)
deriving DecidableEq, Repr

/-- Embedding of `BaseEnv._phys_steps_on_frame` (base_env.py lines 234-241).
The method starts with the local assignment `phys_steps = 10`, which shadows
the configured `self.phys_steps` stored by `__init__` (line 85); the
`self_phys_steps` argument carries that configured value and, exactly as in
the source, is never read.  Then `spf = 1 / self.fps`, `dt = spf /
phys_steps`, and for each of `range(phys_steps)` iterations every entity
gets `update(dt)` followed by one `space.step(dt)`. -/
def phys_steps_on_frame (self_phys_steps : Nat) (fps : ℚ) (num_entities : Nat) :
    List PhysEvent :=
  let _ := self_phys_steps
  let phys_steps : Nat := 10
  let spf := 1 / fps
  let dt := spf / (phys_steps : ℚ)
  (List.range phys_steps).flatMap (fun _ =>
    ((List.range num_entities).map (fun j => PhysEvent.update j dt))
      ++ [PhysEvent.space_step dt])

/-- C2 (defect witness): configure `phys_steps = 5` and `fps = 20` with two
live entities.  The claim requires 5 sub-steps of size `1/(20*5) = 1/100`;
the loop instead performs 10 sub-steps of size `1/(20*10) = 1/200`
(each sub-step updating every entity before the space step), because the
local `phys_steps = 10` shadows the configured value. -/
theorem phys_steps_on_frame_ignores_configured_substeps :
    phys_steps_on_frame 5 20 2
      = (List.replicate 10
          [PhysEvent.update 0 (1/200), PhysEvent.update 1 (1/200),
           PhysEvent.space_step (1/200)]).flatten
    ∧ ((phys_steps_on_frame 5 20 2).filter
        (fun e => match e with | PhysEvent.space_step _ => true | _ => false)).length = 10
    ∧ PhysEvent.space_step (1/100) ∉ phys_steps_on_frame 5 20 2 := by
  have hdt : (1:ℚ) / 20 / ((10:Nat):ℚ) = 1/200 := by norm_num
  have h : phys_steps_on_frame 5 20 2
      = (List.replicate 10
          [PhysEvent.update 0 (1/200), PhysEvent.update 1 (1/200),
           PhysEvent.space_step (1/200)]).flatten := by
    simp only [phys_steps_on_frame, hdt]
    simp [List.range_succ, List.replicate]
  refine ⟨h, by rw [h]; rfl, ?_⟩
  rw [h]
  intro hmem
  simp only [List.mem_flatten, List.mem_replicate] at hmem
  obtain ⟨l, ⟨-, rfl⟩, hl⟩ := hmem
  simp only [List.mem_cons, List.not_mem_nil, or_false] at hl
  rcases hl with h1 | h1 | h1
  · exact PhysEvent.noConfusion h1
  · exact PhysEvent.noConfusion h1
  · rw [PhysEvent.space_step.injEq] at h1
    norm_num at h1

/-! ### Entity setup call (base_env.py `BaseEnv.add_entities` lines 169-180
versus entities.py `Entity.setup` lines 22-26). -/

/-- Positional arguments that `add_entities` passes to `entity.setup`
(base_env.py line 180): the viewer, the physics space, and the episode's
physics-variable set. -/
inductive SetupArg
  | viewer
  | phys_space
  | phys_vars
deriving DecidableEq, Repr

/-- The argument list of the `entity.setup(self.viewer, self._space,
self._phys_vars)` call in `BaseEnv.add_entities` (base_env.py line 180). -/
def add_entities_setup_args : List SetupArg :=
  [SetupArg.viewer, SetupArg.phys_space, SetupArg.phys_vars]

/-- Number of positional parameters (after `self`) of `Entity.setup(self,
viewer, space)` as defined in entities.py line 22.  `Robot.setup`,
`ArenaBoundaries.setup` and `Shape.setup` are all declared `(self, *args,
**kwargs)` and forward every argument here unchanged. -/
def entity_setup_num_params : Nat := 2

/-- Python positional-argument binding: a call succeeds exactly when the
number of supplied positional arguments matches the parameter count,
otherwise it raises `TypeError`. -/
def bind_positional (num_params : Nat) (args : List SetupArg) :
    Except String (List SetupArg) :=
  if args.length = num_params then Except.ok args
  else Except.error "TypeError: setup takes 3 positional arguments but 4 were given"

/-- Force-limit constants of `PhysicsVariables` (base_env.py lines 47-55);
each `PhysVar(default, range)` declares the nominal default used by
`defaults()`. -/
structure PhysicsVariables where
  robot_pos_joint_max_force : ℚ
  robot_rot_joint_max_force : ℚ
  robot_finger_max_force : ℚ
  shape_trans_joint_max_force : ℚ
  shape_rot_joint_max_force : ℚ
deriving DecidableEq, Repr

/-- Nominal defaults declared in base_env.py lines 51-55: `PhysVar(3, _)`,
`PhysVar(1, _)`, `PhysVar(4, _)`, `PhysVar(1.5, _)`, `PhysVar(0.1, _)`. -/
def PhysicsVariables.defaults : PhysicsVariables :=
  { robot_pos_joint_max_force := 3
    robot_rot_joint_max_force := 1
    robot_finger_max_force := 4
    shape_trans_joint_max_force := 3/2
    shape_rot_joint_max_force := 1/10 }

/-- Joint force limits hard-coded in `Robot.setup` (entities.py):
`pos_control_joint.max_force = 3` (line 85), `rot_control_joint.max_force =
1` (line 90), `finger_motor.max_force = 2` (line 138).  None of them is read
from a `PhysicsVariables` set. -/
structure RobotJointForces where
  pos_control_max_force : ℚ
  rot_control_max_force : ℚ
  finger_motor_max_force : ℚ
deriving DecidableEq, Repr

def robot_setup_joint_forces : RobotJointForces :=
  { pos_control_max_force := 3, rot_control_max_force := 1, finger_motor_max_force := 2 }

/-- C3 (defect witness): the three-argument `entity.setup(viewer, space,
phys_vars)` call made by `add_entities` cannot be bound by the two-parameter
`Entity.setup(self, viewer, space)` that every entity in entities.py
forwards to, so setup raises `TypeError` instead of completing; moreover the
entities read no force limits from `PhysicsVariables` — the finger motor
force is hard-coded to 2 while `PhysicsVariables.robot_finger_max_force`
defaults to 4. -/
theorem entity_setup_call_mismatch :
    bind_positional entity_setup_num_params add_entities_setup_args
      = Except.error "TypeError: setup takes 3 positional arguments but 4 were given"
    ∧ robot_setup_joint_forces.finger_motor_max_force
      ≠ PhysicsVariables.defaults.robot_finger_max_force := by
  refine ⟨rfl, by norm_num [robot_setup_joint_forces, PhysicsVariables.defaults]⟩

/-! ### Shape construction (entities.py `Shape.__init__` lines 321-338 and the
shape-type dispatch of `Shape.setup` lines 340-390). -/

/-- Values that can be passed as `shape_type`.  The Python constructor
accepts any value; `ShapeType` (entities.py lines 314-318) enumerates the
four implemented members, and `other tag` stands for any value outside
them. -/
inductive ShapeTypeValue
  | CIRCLE
  | SQUARE
  | TRIANGLE
  | PENTAGON
  | other (tag : Nat)
deriving DecidableEq, Repr

/-- Attribute record stored by `Shape.__init__` (entities.py lines 323-338).
The colour is looked up in the `COLOURS_RGB` table of the style module
(absent from this tree), so the name is stored here. -/
structure Shape where
  shape_type : ShapeTypeValue
  colour_name : String
  shape_size : ℚ
  init_pos : ℚ × ℚ
  init_angle : ℚ
  mass : ℚ
deriving DecidableEq, Repr

/-- Embedding of `Shape.__init__` (entities.py lines 323-338): it only
stores its arguments as attributes; there is no validation of `shape_type`
and no failure path for it. -/
def Shape.init (shape_type : ShapeTypeValue) (colour_name : String) (shape_size : ℚ)
    (init_pos : ℚ × ℚ) (init_angle : ℚ) (mass : ℚ) : Shape :=
  { shape_type, colour_name, shape_size, init_pos, init_angle, mass }

/-- Kind of physics body built by the `Shape.setup` dispatch. -/
inductive PhysBodyKind
  | box
  | circle
  | regular_poly (num_sides : Nat)
deriving DecidableEq, Repr

/-- Embedding of the shape-type dispatch in `Shape.setup` (entities.py lines
346-387): SQUARE builds a bevelled box, CIRCLE a circle, TRIANGLE and
PENTAGON regular polygons (3 and 5 sides); any other value reaches the
final `else` and raises `NotImplementedError`. -/
def Shape.setup_dispatch : ShapeTypeValue → Except String PhysBodyKind
  | ShapeTypeValue.SQUARE => Except.ok PhysBodyKind.box
  | ShapeTypeValue.CIRCLE => Except.ok PhysBodyKind.circle
  | ShapeTypeValue.TRIANGLE => Except.ok (PhysBodyKind.regular_poly 3)
  | ShapeTypeValue.PENTAGON => Except.ok (PhysBodyKind.regular_poly 5)
  | _ => Except.error "NotImplementedError: unimplemented shape type"

/-- C9 counterexample: constructing a `Shape` with an unimplemented shape
type completes normally — `__init__` stores the value unvalidated — so the
error is not raised at construction; the `NotImplementedError` only arises
from the `setup` dispatch. -/
theorem shape_invalid_type_not_fatal_at_construction :
    Shape.init (ShapeTypeValue.other 0) "red" (3/25) (0, 0) 0 (1/2)
      = { shape_type := ShapeTypeValue.other 0, colour_name := "red",
          shape_size := 3/25, init_pos := (0, 0), init_angle := 0, mass := 1/2 }
    ∧ Shape.setup_dispatch (ShapeTypeValue.other 0)
      = Except.error "NotImplementedError: unimplemented shape type" := by
  refine ⟨rfl, rfl⟩

/-- C9 (amended): for every shape type outside circle, square, triangle and
pentagon, construction succeeds (the value is stored unvalidated) and the
fatal `NotImplementedError` is raised by the `setup` dispatch, which runs
during episode reset, before the episode steps; nothing catches or retries
it. -/
theorem shape_invalid_type_fatal_at_setup (t : ShapeTypeValue)
    (hc : t ≠ ShapeTypeValue.CIRCLE) (hs : t ≠ ShapeTypeValue.SQUARE)
    (ht : t ≠ ShapeTypeValue.TRIANGLE) (hp : t ≠ ShapeTypeValue.PENTAGON)
    (colour_name : String) (shape_size : ℚ) (init_pos : ℚ × ℚ)
    (init_angle : ℚ) (mass : ℚ) :
    (Shape.init t colour_name shape_size init_pos init_angle mass).shape_type = t
    ∧ Shape.setup_dispatch t
      = Except.error "NotImplementedError: unimplemented shape type" := by
  refine ⟨rfl, ?_⟩
  cases t with
  | CIRCLE => exact absurd rfl hc
  | SQUARE => exact absurd rfl hs
  | TRIANGLE => exact absurd rfl ht
  | PENTAGON => exact absurd rfl hp
  | other tag => rfl

/-- Witness for the amended C9 at the concrete unimplemented type
`other 7`. -/
theorem shape_invalid_type_fatal_at_setup_witness :
    (Shape.init (ShapeTypeValue.other 7) "blue" (3/25) (0, 0) 0 (1/2)).shape_type
        = ShapeTypeValue.other 7
    ∧ Shape.setup_dispatch (ShapeTypeValue.other 7)
      = Except.error "NotImplementedError: unimplemented shape type" :=
  shape_invalid_type_fatal_at_setup (ShapeTypeValue.other 7)
    (by decide) (by decide) (by decide) (by decide) "blue" (3/25) (0, 0) 0 (1/2)

/-! ### Entity bookkeeping during reset (base_env.py `BaseEnv.add_entities`
lines 169-180 and the validation in `BaseEnv.reset` lines 182-218). -/

/-- The kinds of entity a scenario hook can construct. -/
inductive Ent
  | robot (id : Nat)
  | arena
  | shape (id : Nat)
deriving DecidableEq, Repr

/-- The `isinstance(entity, en.Robot)` test. -/
def Ent.isRobot : Ent → Bool
  | Ent.robot _ => true
  | _ => false

/-- The parts of the environment state that `add_entities` mutates:
`self._entities` and `self._robot`. -/
structure EnvEntities where
  entities : List Ent
  robot : Option Ent
deriving DecidableEq, Repr

/-- Embedding of `BaseEnv.add_entities` (base_env.py lines 176-180): for
each entity in order, set `self._robot` to it when it is a Robot, and append
it to `self._entities`.  (The `entity.setup(...)` call in the same loop body
is modelled by `bind_positional` above; it does not touch these two
fields.) -/
def add_entities_track (s : EnvEntities) (new : List Ent) : EnvEntities :=
  new.foldl (fun s e =>
    { entities := s.entities ++ [e]
      robot := if e.isRobot then some e else s.robot }) s

/-- First-some choice on options, used to describe the fold. -/
def opt_or (a b : Option Ent) : Option Ent :=
  match a with
  | some x => some x
  | none => b

/-- The last robot of a list, i.e. the value `self._robot` holds after the
`add_entities` loop ran over the list. -/
def last_robot : List Ent → Option Ent
  | [] => none
  | e :: rest => opt_or (last_robot rest) (if e.isRobot then some e else none)

lemma add_entities_track_spec (new : List Ent) : ∀ s : EnvEntities,
    add_entities_track s new
      = { entities := s.entities ++ new, robot := opt_or (last_robot new) s.robot } := by
  induction new with
  | nil => intro s; simp [add_entities_track, last_robot, opt_or]
  | cons e rest ih =>
    intro s
    have h1 : add_entities_track s (e :: rest)
        = add_entities_track
            { entities := s.entities ++ [e]
              robot := if e.isRobot then some e else s.robot } rest := rfl
    rw [h1, ih]
    simp only [last_robot]
    cases hlr : last_robot rest with
    | some r => simp [opt_or]
    | none => cases hR : e.isRobot <;> simp [opt_or, hR]

/-- Embedding of the reset sequence relevant to the entity-list assertions
(base_env.py lines 182-218): `self._entities = []`, `self._robot = None`,
`self.add_entities([self._arena])`, then the scenario hook's own
`add_entities` calls (its entities given as `on_reset_ents`), then `assert
isinstance(self._robot, en.Robot)` and `assert len(self._entities) >= 1`. -/
def reset_validate (on_reset_ents : List Ent) : Except String EnvEntities :=
  let s0 : EnvEntities := { entities := [], robot := none }
  let s1 := add_entities_track s0 [Ent.arena]
  let s2 := add_entities_track s1 on_reset_ents
  if (s2.robot.map Ent.isRobot).getD false then
    if 1 ≤ s2.entities.length then Except.ok s2
    else Except.error "AssertionError: at least one entity required"
  else Except.error "AssertionError: robot instance required"

lemma last_robot_cases (ents : List Ent) :
    (last_robot ents = none ∧ ents.any (fun e => e.isRobot) = false)
    ∨ (∃ r, last_robot ents = some r ∧ r.isRobot = true
        ∧ ents.any (fun e => e.isRobot) = true) := by
  induction ents with
  | nil => exact Or.inl ⟨rfl, rfl⟩
  | cons e rest ih =>
    rcases ih with ⟨h1, h2⟩ | ⟨r, h1, hr, h2⟩
    · cases hR : e.isRobot
      · exact Or.inl (by simp [last_robot, h1, opt_or, hR, h2])
      · exact Or.inr ⟨e, by simp [last_robot, h1, opt_or, hR], hR, by simp [hR]⟩
    · exact Or.inr ⟨r, by simp [last_robot, h1, opt_or], hr, by simp [h2]⟩

/-- C5 counterexample: a scenario hook that creates two robots does NOT
abort — both assertions pass and reset proceeds, with the second robot as
the tracked one. -/
theorem reset_two_robots_does_not_abort :
    reset_validate [Ent.robot 0, Ent.robot 1]
      = Except.ok { entities := [Ent.arena, Ent.robot 0, Ent.robot 1]
                    robot := some (Ent.robot 1) } := rfl

/-- C5 (amended): the reset assertions abort exactly when the scenario hook
created no robot; the entity list always contains the arena so the
`len >= 1` assertion never fires; when one or more robots were created,
reset proceeds with the last-created robot tracked — creating more than one
robot is not detected. -/
theorem reset_validate_requires_some_robot (ents : List Ent) :
    reset_validate ents
      = if ents.any (fun e => e.isRobot) = true then
          Except.ok { entities := Ent.arena :: ents, robot := last_robot ents }
        else Except.error "AssertionError: robot instance required" := by
  have harena : Ent.arena.isRobot = false := rfl
  rcases last_robot_cases ents with ⟨h1, h2⟩ | ⟨r, h1, hr, h2⟩
  · simp only [reset_validate, add_entities_track_spec, last_robot, opt_or, harena, h1, h2]
    simp
  · simp only [reset_validate, add_entities_track_spec, last_robot, opt_or, harena, h1, h2, hr]
    simp [hr]

/-! ### Episode stepping (base_env.py `BaseEnv.step` lines 254-291). -/

/-- The parts of the 4-tuple returned by `step` that are not the rendered
frame: the reward, the `done` flag and the `info` dict.  The observation is
produced by the renderer (see `render_rgb_array` below) and is unaffected by
this bookkeeping. -/
structure StepRet where
  reward : ℚ
  done : Bool
  info : List (String × ℚ)
deriving DecidableEq, Repr

namespace BaseEnv

/-- Embedding of the reward/termination/score logic of `BaseEnv.step`
(base_env.py lines 264-291): `reward = 0.0`; `self._episode_steps += 1`;
`done = False`, then `done = done or self._episode_steps >=
self.max_episode_steps` when a limit is configured; `eval_score = 0.0`,
overwritten by `score_on_end_of_traj()` when done, with `assert 0 <=
eval_score <= 1`; `info.update(eval_score=eval_score)` on the empty dict.
The action decoding and the physics sub-steps (lines 256-262) mutate only
the robot and the physics space and are modelled separately
(`Robot.set_action`, `phys_steps_on_frame`); the scenario's score is the
parameter `score_on_end_of_traj`. -/
def step (max_episode_steps : Option Nat) (score_on_end_of_traj : ℚ)
    (episode_steps : Nat) : Except String (Nat × StepRet) :=
  let reward : ℚ := 0
  let episode_steps := episode_steps + 1
  let done : Bool := match max_episode_steps with
    | none => false
    | some n => decide (episode_steps ≥ n)
  if done then
    let eval_score := score_on_end_of_traj
    if 0 ≤ eval_score ∧ eval_score ≤ 1 then
      Except.ok (episode_steps,
        { reward := reward, done := done, info := [("eval_score", eval_score)] })
    else Except.error "AssertionError: eval score out of range"
  else
    Except.ok (episode_steps,
      { reward := reward, done := done, info := [("eval_score", (0:ℚ))] })

/-- Trace of `n` consecutive `step` calls starting from `reset()`, which
sets `self._episode_steps = 0` (base_env.py line 183): the final step
counter and the list of per-call return values. -/
def step_trace (max_episode_steps : Option Nat) (score : ℚ) :
    Nat → Except String (Nat × List StepRet)
  | 0 => Except.ok (0, [])
  | k+1 =>
    match step_trace max_episode_steps score k with
    | Except.error e => Except.error e
    | Except.ok (c, rets) =>
      match step max_episode_steps score c with
      | Except.error e => Except.error e
      | Except.ok (c2, r) => Except.ok (c2, rets ++ [r])

end BaseEnv

/-- Return value of every non-final step: zero reward, not done, info dict
containing `eval_score = 0.0`. -/
def nonfinal_ret : StepRet :=
  { reward := 0, done := false, info := [("eval_score", (0:ℚ))] }

/-- Return value of the final step: zero reward, done, info dict containing
the scenario score. -/
def final_ret (s : ℚ) : StepRet :=
  { reward := 0, done := true, info := [("eval_score", s)] }

lemma step_nonfinal (N : Nat) (s : ℚ) (k : Nat) (hk : k + 1 < N) :
    BaseEnv.step (some N) s k = Except.ok (k + 1, nonfinal_ret) := by
  unfold BaseEnv.step
  have hd : decide (k + 1 ≥ N) = false := decide_eq_false (by omega)
  simp [hd, nonfinal_ret]

lemma step_trace_prefix (N : Nat) (s : ℚ) : ∀ k, k < N →
    BaseEnv.step_trace (some N) s k = Except.ok (k, List.replicate k nonfinal_ret) := by
  intro k
  induction k with
  | zero => intro _; rfl
  | succ k ih =>
    intro hk
    have hk' : k < N := Nat.lt_of_succ_lt hk
    simp only [BaseEnv.step_trace]
    rw [ih hk']
    simp only [step_nonfinal N s k hk]
    simp [List.replicate_succ']

/-- C1: with `max_episode_steps = N >= 1`, running `step` N times from
`reset()` gives N-1 returns of (reward 0, done false, info with
`eval_score` 0) followed by one return of (reward 0, done true, info with
the scenario score) when that score lies in `[0,1]`; a score outside
`[0,1]` makes the N-th call a fatal assertion failure instead of a
return. -/
theorem step_episode_contract (N : Nat) (hN : 1 ≤ N) (s : ℚ) :
    (0 ≤ s → s ≤ 1 →
      BaseEnv.step_trace (some N) s N
        = Except.ok (N, List.replicate (N - 1) nonfinal_ret ++ [final_ret s]))
    ∧ (¬ (0 ≤ s ∧ s ≤ 1) →
      BaseEnv.step_trace (some N) s N
        = Except.error "AssertionError: eval score out of range") := by
  obtain ⟨M, rfl⟩ : ∃ M, N = M + 1 := ⟨N - 1, by omega⟩
  have hpre := step_trace_prefix (M + 1) s M (by omega)
  have hd : decide (M + 1 ≥ M + 1) = true := by simp
  constructor
  · intro h0 h1
    simp only [BaseEnv.step_trace]
    rw [hpre]
    simp only [BaseEnv.step, hd]
    simp only [if_pos (show (0:ℚ) ≤ s ∧ s ≤ 1 from ⟨h0, h1⟩)]
    simp [final_ret]
  · intro hbad
    simp only [BaseEnv.step_trace]
    rw [hpre]
    simp only [BaseEnv.step, hd]
    simp only [if_neg hbad]
    simp

/-- Witness for C1: three steps with limit 3 and score 1/2. -/
theorem step_episode_contract_witness :
    BaseEnv.step_trace (some 3) (1/2) 3
      = Except.ok (3, List.replicate 2 nonfinal_ret ++ [final_ret (1/2)]) :=
  (step_episode_contract 3 (by norm_num) (1/2)).1 (by norm_num) (by norm_num)

/-! ### Discrete action table (referenced from base_env.py lines 95 and
110-117; the table itself lives in a module revision absent from this
tree). -/

/-- Modelled from the spec: the module defining `ACTION_NUMS_FLAGS_NAMES` /
`ACTION_ID_TO_FLAGS` is absent from this tree (entities.py here predates
it).  Per the spec, the action space enumerates every valid (vertical,
horizontal, gripper) flag combination, fixed at process start: vertical in
NONE/UP/DOWN, horizontal in NONE/LEFT/RIGHT, gripper in OPEN/CLOSE
(the interactive client in `__main__.py` lines 77-90 always supplies OPEN
or CLOSE as the third component, and maps the all-default triple
(NONE, NONE, OPEN) to action 0). -/
def ACTION_ID_TO_FLAGS : List (Nat × Nat × Nat) :=
  [RobotAction.NONE, RobotAction.UP, RobotAction.DOWN].flatMap (fun ud =>
    [RobotAction.NONE, RobotAction.LEFT, RobotAction.RIGHT].flatMap (fun lr =>
      [RobotAction.OPEN, RobotAction.CLOSE].map (fun grip => (ud, lr, grip))))

/-- Modelled from the spec: `FLAGS_TO_ACTION_ID` is the inverse dict of the
table; looking a flag triple up yields its index (`None` models the
`KeyError` for a triple outside the table). -/
def FLAGS_TO_ACTION_ID (flags : Nat × Nat × Nat) : Option Nat :=
  ACTION_ID_TO_FLAGS.findIdx? (fun t => t == flags)

/-- Embedding of `BaseEnv.action_to_flags` (base_env.py lines 110-112):
index into the fixed table (`none` models the `IndexError` for an index
out of range). -/
def action_to_flags (int_action : Nat) : Option (Nat × Nat × Nat) :=
  ACTION_ID_TO_FLAGS[int_action]?

/-- Embedding of `BaseEnv.flags_to_action` (base_env.py lines 114-117):
look the triple up in the inverse dict. -/
def flags_to_action (flags : Nat × Nat × Nat) : Option Nat :=
  FLAGS_TO_ACTION_ID flags

/-- C6: the fixed action table has 18 entries and the index/flag-triple
mapping round-trips in both directions, i.e. it is a bijection between
`[0, 18)` and the table's flag triples. -/
theorem action_flags_round_trip :
    ACTION_ID_TO_FLAGS.length = 18
    ∧ (∀ a : Nat, a < ACTION_ID_TO_FLAGS.length →
        (action_to_flags a).bind flags_to_action = some a)
    ∧ (∀ t ∈ ACTION_ID_TO_FLAGS, (flags_to_action t).bind action_to_flags = some t) :=
  ⟨rfl, by decide, by decide⟩

/-- Witness for C6: round trips at index 7 and at the triple
(UP, NONE, CLOSE). -/
theorem action_flags_round_trip_witness :
    (action_to_flags 7).bind flags_to_action = some 7
    ∧ (flags_to_action (RobotAction.UP, RobotAction.NONE, RobotAction.CLOSE)).bind
        action_to_flags
      = some (RobotAction.UP, RobotAction.NONE, RobotAction.CLOSE) :=
  ⟨action_flags_round_trip.2.1 7 (by decide),
   action_flags_round_trip.2.2 (RobotAction.UP, RobotAction.NONE, RobotAction.CLOSE)
     (by decide)⟩

/-! ### Pixel readback (gym_render.py `Viewer.render` lines 126-152). -/

/-- One pixel of the colour buffer: four `uint8` channels (RGBA), as
produced by `np.frombuffer(image_data.data, dtype=np.uint8)` reshaped to
`(height, width, 4)`. -/
structure RGBA where
  r : Fin 256
  g : Fin 256
  b : Fin 256
  a : Fin 256
deriving DecidableEq, Repr

/-- The `0:3` channel slice: keep R, G, B. -/
def rgb_of (p : RGBA) : Fin 256 × Fin 256 × Fin 256 := (p.r, p.g, p.b)

/-- Embedding of the pixel path of `Viewer.render(return_rgb_array=True)`
(gym_render.py lines 138-149): the colour buffer `buf` is the reshaped
`(buffer.height, buffer.width, 4)` array whose row 0 is the bottom row
(OpenGL origin is bottom-left); `arr[::-1, :, 0:3]` reverses the row order
and keeps the first three channels of every pixel. -/
def render_rgb_array (buf : List (List RGBA)) :
    List (List (Fin 256 × Fin 256 × Fin 256)) :=
  buf.reverse.map (fun row => row.map rgb_of)

/-- Shape of `BaseEnv.observation_space` (base_env.py lines 90-93):
`(*res_hw, 3)`, dtype uint8. -/
def observation_space_shape (res_h res_w : Nat) : Nat × Nat × Nat := (res_h, res_w, 3)

/-- C7: when the colour buffer has the configured resolution (`buffer.height
= res_h`, `buffer.width = res_w`; the code reads the buffer's own
dimensions, which equal the requested window size unless the window system
resized the window), the returned array has `res_h` rows of `res_w` RGB
pixels — matching the declared observation shape `(res_h, res_w, 3)` — and
its row `i` is colour-buffer row `res_h - 1 - i` restricted to the RGB
channels. -/
theorem render_rgb_array_flips_vertically (res_h res_w : Nat) (buf : List (List RGBA))
    (hh : buf.length = res_h) (hw : ∀ row ∈ buf, row.length = res_w) :
    (render_rgb_array buf).length = res_h
    ∧ (∀ row ∈ render_rgb_array buf, row.length = res_w)
    ∧ (∀ i, i < res_h →
        (render_rgb_array buf)[i]? = (buf[res_h - 1 - i]?).map (List.map rgb_of))
    ∧ ((render_rgb_array buf).length, res_w, 3) = observation_space_shape res_h res_w := by
  have h1 : (render_rgb_array buf).length = res_h := by
    simp [render_rgb_array, hh]
  refine ⟨h1, ?_, ?_, by rw [h1]; rfl⟩
  · intro row hrow
    simp only [render_rgb_array, List.mem_map, List.mem_reverse] at hrow
    obtain ⟨row0, hrow0, rfl⟩ := hrow
    simp [hw row0 hrow0]
  · intro i hi
    have hi' : i < buf.length := by omega
    show (List.map _ buf.reverse)[i]? = _
    rw [List.getElem?_map, List.getElem?_reverse hi', hh]

/-- Buffer used to instantiate the renderer theorem: two rows of one RGBA
pixel each. -/
def exampleBuf : List (List RGBA) :=
  [[{ r := 10, g := 20, b := 30, a := 255 }],
   [{ r := 40, g := 50, b := 60, a := 255 }]]

/-- Witness for C7: on the 2x1 example buffer, output row 0 is buffer row
1 (the top row) restricted to RGB. -/
theorem render_rgb_array_flips_vertically_witness :
    (render_rgb_array exampleBuf)[0]? = (exampleBuf[2 - 1 - 0]?).map (List.map rgb_of) :=
  (render_rgb_array_flips_vertically 2 1 exampleBuf rfl (by decide)).2.2.1 0 (by decide)

end Milbench
